import Mathlib

/-!
Verification development for the e-learning backend (FastAPI + MongoDB).

Source layout:
* `src/schemas.py` — pydantic models `Course`, `Lesson`, `Enrollment`, `Review`
  with field constraints and defaults.
* `src/main.py` — HTTP handlers: course CRUD, lessons listing (sorted by
  `order`), enrollments, reviews, demo seeding, and a `/test` diagnostic
  endpoint.

The document-store adapter (`database.py`, providing `create_document` and
`get_documents`) is imported by `src/main.py` but is not part of the source
tree; it is modelled from the spec (section 4.2 "Document Store Adapter"):
`create` inserts a new document and returns its generated identifier as a
string, `query` returns up to `limit` matching documents in insertion order,
filters are conjunctions of exact-match and case-insensitive substring
conditions, with OR across free-text fields and list membership for tags.
Identifiers are fixed-length hexadecimal (MongoDB ObjectId: 24 hex chars).
-/

namespace ELearning

/-! ## Identifiers (bson ObjectId) -/

/-- Hex digit character for a value `0..15` (lowercase, as `binascii.hexlify`
produces). -/
def hexChar (n : Nat) : Char :=
  if n < 10 then Char.ofNat (48 + n) else Char.ofNat (87 + n)

/-- Big-endian hex rendering of `n` padded/truncated to exactly `k` digits. -/
def genIdAux : Nat → Nat → List Char
  | 0, _ => []
  | k + 1, n => genIdAux k (n / 16) ++ [hexChar (n % 16)]

/-- Modelled from the spec: the store-assigned identifier for the `n`-th
created document, a fixed-length (24) hexadecimal string, as in the reference
store's ObjectId.  `database.py` (which holds `create_document`) is not in the
source tree. -/
def genId (n : Nat) : String :=
  String.mk (genIdAux 24 n)

/-- Whether `c` is a hexadecimal digit (either case), as `bson.ObjectId`
accepts. -/
def isHexDigitChar (c : Char) : Bool :=
  (48 ≤ c.toNat && c.toNat ≤ 57) || (97 ≤ c.toNat && c.toNat ≤ 102) ||
    (65 ≤ c.toNat && c.toNat ≤ 70)

/-- `bson.ObjectId.is_valid` for string inputs: exactly 24 hexadecimal
characters. -/
def isValidObjectId (s : String) : Bool :=
  s.length == 24 && s.toList.all isHexDigitChar

/-- Character-wise lowercasing of a string (`str.lower()` for the ASCII range
relevant here). -/
def strLower (s : String) : String :=
  String.mk (s.toList.map Char.toLower)

/-- Equality of ObjectIds given their hex strings: `ObjectId(a) == ObjectId(b)`
compares the decoded bytes, hence is case-insensitive on the hex digits. -/
def oidEq (a b : String) : Bool :=
  strLower a == strLower b

/-! ## Case-insensitive substring matching

`get_documents` receives `{"$regex": q, "$options": "i"}` conditions; per the
spec these are case-insensitive substring tests ("the search term appears as a
substring (case-insensitive)"). -/

/-- Whether `pat` occurs at the head of `s`. -/
def leadMatch : List Char → List Char → Bool
  | [], _ => true
  | _ :: _, [] => false
  | a :: as, b :: bs => a == b && leadMatch as bs

/-- Whether `pat` occurs contiguously anywhere in `s`. -/
def hasSubChars (pat : List Char) : List Char → Bool
  | [] => pat.isEmpty
  | b :: bs => leadMatch pat (b :: bs) || hasSubChars pat bs

/-- Case-insensitive substring test: does `pat` occur in `hay`? -/
def containsCI (hay pat : String) : Bool :=
  hasSubChars (strLower pat).toList (strLower hay).toList

/-! ## Data model (src/schemas.py) -/

/-- Courses collection schema (validated record, defaults applied). -/
structure Course where
  title : String
  subtitle : Option String
  description : String
  instructor_name : String
  instructor_email : String
  price : Rat
  thumbnail_url : Option String
  tags : List String
  language : String
  level : String
deriving DecidableEq, Repr

/-- An untyped Course payload: required fields present, optional/defaulted
fields possibly absent (`none`). -/
structure CoursePayload where
  title : String
  subtitle : Option String
  description : String
  instructor_name : String
  instructor_email : String
  price : Option Rat
  thumbnail_url : Option String
  tags : Option (List String)
  language : Option String
  level : Option String
deriving DecidableEq, Repr

/-- Pydantic validation of a Course payload: applies the declared defaults
(`price` 0.0, `tags` `[]`, `language` "English", `level` "Beginner") and
enforces `price ≥ 0`; returns `none` on violation. -/
def validate_course (p : CoursePayload) : Option Course :=
  let price := p.price.getD 0
  if 0 ≤ price then
    some { title := p.title, subtitle := p.subtitle, description := p.description,
           instructor_name := p.instructor_name, instructor_email := p.instructor_email,
           price := price, thumbnail_url := p.thumbnail_url,
           tags := p.tags.getD [], language := p.language.getD "English",
           level := p.level.getD "Beginner" }
  else none

/-- A lesson document as stored: schemaless, so the `order` field may be
absent (`none`); `list_lessons` reads it with `x.get("order", 0)`. -/
structure StoredLesson where
  course_id : String
  title : String
  content : String
  video_url : Option String
  order : Option Int
deriving DecidableEq, Repr

/-- Enrollments collection schema; `rating`-like bound lives on `progress`. -/
structure Enrollment where
  course_id : String
  user_email : String
  user_name : String
  progress : Rat
deriving DecidableEq, Repr

/-- An Enrollment payload before validation: `progress` optional (default 0)
and not yet bounds-checked. -/
structure EnrollmentPayload where
  course_id : String
  user_email : String
  user_name : String
  progress : Option Rat
deriving DecidableEq, Repr

/-- Pydantic validation of an Enrollment payload: default `progress = 0`,
constraint `0 ≤ progress ≤ 100`. -/
def validate_enrollment (p : EnrollmentPayload) : Option Enrollment :=
  let progress := p.progress.getD 0
  if 0 ≤ progress ∧ progress ≤ 100 then
    some { course_id := p.course_id, user_email := p.user_email,
           user_name := p.user_name, progress := progress }
  else none

/-- Course reviews schema. -/
structure Review where
  course_id : String
  user_email : String
  user_name : String
  rating : Int
  comment : Option String
deriving DecidableEq, Repr

/-- A Review payload before validation: `rating` required but not yet
bounds-checked. -/
structure ReviewPayload where
  course_id : String
  user_email : String
  user_name : String
  rating : Int
  comment : Option String
deriving DecidableEq, Repr

/-- Pydantic validation of a Review payload: constraint `1 ≤ rating ≤ 5`. -/
def validate_review (p : ReviewPayload) : Option Review :=
  if 1 ≤ p.rating ∧ p.rating ≤ 5 then
    some { course_id := p.course_id, user_email := p.user_email,
           user_name := p.user_name, rating := p.rating, comment := p.comment }
  else none

/-! ## The document store

Modelled from the spec: one collection per entity kind, documents kept in
insertion order, identifiers assigned by the store on creation. -/

/-- State of the document store: the four collections used by `src/main.py`,
each a list of (identifier, record) in insertion order, plus the counter
feeding identifier generation. -/
structure Store where
  courses : List (String × Course)
  lessons : List (String × StoredLesson)
  enrollments : List (String × Enrollment)
  reviews : List (String × Review)
  nextId : Nat
deriving DecidableEq, Repr

/-- The store of a fresh deployment: all collections empty. -/
def Store.empty : Store :=
  { courses := [], lessons := [], enrollments := [], reviews := [], nextId := 0 }

/-- Modelled from the spec: `create_document("course", c)` inserts the record
and returns its generated identifier. -/
def create_course_doc (s : Store) (c : Course) : String × Store :=
  let cid := genId s.nextId
  (cid, { s with courses := s.courses ++ [(cid, c)], nextId := s.nextId + 1 })

/-- Modelled from the spec: `create_document("lesson", l)`. -/
def create_lesson_doc (s : Store) (l : StoredLesson) : String × Store :=
  let lid := genId s.nextId
  (lid, { s with lessons := s.lessons ++ [(lid, l)], nextId := s.nextId + 1 })

/-- Modelled from the spec: `create_document("enrollment", e)`. -/
def create_enrollment_doc (s : Store) (e : Enrollment) : String × Store :=
  let eid := genId s.nextId
  (eid, { s with enrollments := s.enrollments ++ [(eid, e)], nextId := s.nextId + 1 })

/-- Modelled from the spec: `create_document("review", r)`. -/
def create_review_doc (s : Store) (r : Review) : String × Store :=
  let rid := genId s.nextId
  (rid, { s with reviews := s.reviews ++ [(rid, r)], nextId := s.nextId + 1 })

/-! ## Course filters (src/main.py, `list_courses`)

The handler builds `filter_dict` conditionally: `if tag:` adds
`{"tags": {"$in": [tag]}}`, `if q:` adds an `$or` of case-insensitive regex
conditions over title, subtitle, description and tags.  Python truthiness on
an optional string: `None` and `""` are falsy. -/

/-- Python truthiness of an optional string (`if tag:`): `None` and `""` are
falsy, everything else truthy. -/
def pyTruthy : Option String → Bool
  | none => false
  | some s => s != ""

/-- The Mongo filter `list_courses` builds: an optional exact tag-membership
condition and an optional free-text `$or` condition. -/
structure CourseFilter where
  tagCond : Option String
  orCond : Option String
deriving DecidableEq, Repr

/-- `filter_dict` construction in `list_courses`: each condition is added only
when its query parameter is truthy. -/
def build_course_filter (tag q : Option String) : CourseFilter :=
  { tagCond := if pyTruthy tag then tag else none,
    orCond := if pyTruthy q then q else none }

/-- Modelled from the spec: the `$or` of case-insensitive substring conditions
over title, subtitle, description and tags, as evaluated by the store
(`get_documents` lives in the missing `database.py`).  A regex on the
list-valued `tags` field matches when any element matches; a regex on an
absent/null field (missing `subtitle`) does not match. -/
def course_matches_q (q : String) (c : Course) : Bool :=
  containsCI c.title q ||
  (match c.subtitle with
   | some st => containsCI st q
   | none => false) ||
  containsCI c.description q ||
  c.tags.any (fun t => containsCI t q)

/-- Modelled from the spec: evaluation of the course filter on one record —
the conjunction of its conditions, `$in` being exact membership in `tags`. -/
def course_filter_matches (f : CourseFilter) (c : Course) : Bool :=
  (match f.tagCond with
   | none => true
   | some t => c.tags.contains t) &&
  (match f.orCond with
   | none => true
   | some q => course_matches_q q c)

/-! ## Handlers (src/main.py) -/

/-- `GET /api/courses`: builds the filter from `tag` and `q` and queries the
course collection with `limit` (default 50); the store returns up to `limit`
matching documents in insertion order. -/
def list_courses (s : Store) (tag q : Option String) (limit : Nat) :
    List (String × Course) :=
  ((s.courses.filter (fun p => course_filter_matches (build_course_filter tag q) p.2)).take
    limit)

/-- `GET /api/courses/{course_id}`: 400 "Invalid course ID" when the id fails
`ObjectId.is_valid`, 404 "Course not found" when no document matches
`{"_id": ObjectId(course_id)}`, otherwise `docs[0]` — the matching record with
its identifier. -/
def get_course (s : Store) (course_id : String) :
    Except (Nat × String) (String × Course) :=
  if isValidObjectId course_id then
    match (s.courses.filter (fun p => oidEq p.1 course_id)).take 1 with
    | [] => Except.error (404, "Course not found")
    | d :: _ => Except.ok d
  else Except.error (400, "Invalid course ID")

/-- `POST /api/courses` on an already-validated body: stores the record and
returns `{"id": course_id}` together with the new store state. -/
def create_course (s : Store) (c : Course) : String × Store :=
  create_course_doc s c

/-- `POST /api/courses` at the HTTP boundary: the framework validates the
request body against the `Course` schema before the handler runs (modelled
from the spec: `ValidationError → 400`, detected before any store call);
returns `(status, body id)` and the resulting store state. -/
def create_course_endpoint (s : Store) (p : CoursePayload) :
    (Nat × Option String) × Store :=
  match validate_course p with
  | none => ((400, none), s)
  | some c =>
    let (cid, s2) := create_course s c
    ((200, some cid), s2)

/-- `POST /api/enroll` at the HTTP boundary (validation before storage,
modelled from the spec as for courses). -/
def enroll_endpoint (s : Store) (p : EnrollmentPayload) :
    (Nat × Option String) × Store :=
  match validate_enrollment p with
  | none => ((400, none), s)
  | some e =>
    let (eid, s2) := create_enrollment_doc s e
    ((200, some eid), s2)

/-- `POST /api/reviews` at the HTTP boundary (validation before storage,
modelled from the spec as for courses). -/
def create_review_endpoint (s : Store) (p : ReviewPayload) :
    (Nat × Option String) × Store :=
  match validate_review p with
  | none => ((400, none), s)
  | some r =>
    let (rid, s2) := create_review_doc s r
    ((200, some rid), s2)

/-- Comparison used to sort lessons: `key=lambda x: x.get("order", 0)`,
ascending. -/
def lessonLe (a b : String × StoredLesson) : Prop :=
  a.2.order.getD 0 ≤ b.2.order.getD 0

instance : DecidableRel lessonLe := fun a b =>
  inferInstanceAs (Decidable (a.2.order.getD 0 ≤ b.2.order.getD 0))

instance : IsTotal (String × StoredLesson) lessonLe :=
  ⟨fun a b => Int.le_total (a.2.order.getD 0) (b.2.order.getD 0)⟩

instance : IsTrans (String × StoredLesson) lessonLe :=
  ⟨fun _ _ _ h1 h2 => le_trans h1 h2⟩

/-- `GET /api/courses/{course_id}/lessons`: queries the lesson collection with
`{"course_id": course_id}` and a hard-coded `limit=200`, then sorts the result
ascending by `x.get("order", 0)` (Python's `sorted` is a stable sort, matched
by insertion sort). -/
def list_lessons (s : Store) (course_id : String) : List (String × StoredLesson) :=
  List.insertionSort lessonLe
    ((s.lessons.filter (fun p => p.2.course_id == course_id)).take 200)

/-! ## Seeding (src/main.py, `seed_demo`) -/

/-- First demo course of `seed_demo` ("React for Beginners"); `language` is
not passed, so the schema default "English" applies. -/
def demo_course_1 : Course :=
  { title := "React for Beginners",
    subtitle := some "Build dynamic UIs with hooks",
    description := "Learn the fundamentals of React, components, hooks, and state management by building hands-on projects.",
    instructor_name := "Alex Johnson", instructor_email := "alex@example.com",
    price := 19.99,
    thumbnail_url := some "https://images.unsplash.com/photo-1526378722484-bd91ca387e72?w=800&q=80&auto=format&fit=crop",
    tags := ["react", "frontend", "javascript"],
    language := "English", level := "Beginner" }

/-- Second demo course of `seed_demo` ("FastAPI Bootcamp"). -/
def demo_course_2 : Course :=
  { title := "FastAPI Bootcamp",
    subtitle := some "Modern APIs with Python",
    description := "Create high-performance APIs with FastAPI, Pydantic, and MongoDB. Includes deployment tips.",
    instructor_name := "Samantha Lee", instructor_email := "sam@example.com",
    price := 24.99,
    thumbnail_url := some "https://images.unsplash.com/photo-1518779578993-ec3579fee39f?w=800&q=80&auto=format&fit=crop",
    tags := ["python", "api", "backend"],
    language := "English", level := "Intermediate" }

/-- Third demo course of `seed_demo` ("Design Systems 101"). -/
def demo_course_3 : Course :=
  { title := "Design Systems 101",
    subtitle := some "Build cohesive UI libraries",
    description := "From typography to components, learn how to create maintainable design systems.",
    instructor_name := "Taylor Kim", instructor_email := "taylor@example.com",
    price := 0,
    thumbnail_url := some "https://images.unsplash.com/photo-1529336953121-ad5a0d43d0d2?w=800&q=80&auto=format&fit=crop",
    tags := ["design", "ui", "ux"],
    language := "English", level := "All Levels" }

/-- The `l_idx`-th auto-generated demo lesson for course `cid` (the loop body
`for l_idx in range(1, 4)` of `seed_demo`). -/
def demo_lesson (cid : String) (i : Nat) : StoredLesson :=
  { course_id := cid,
    title := "Lesson " ++ toString i ++ ": Topic Overview",
    content := "This is the content for lesson " ++ toString i ++ ". You\x27ll learn key concepts and apply them in a mini project.",
    video_url := none,
    order := some (i : Int) }

/-- Result body of `POST /api/seed`: either the "Courses already exist"
message or the list of created course identifiers. -/
inductive SeedResult where
  | alreadyExists
  | created (ids : List String)
deriving DecidableEq, Repr

/-- One iteration of the seeding loop: create the course, then its three demo
lessons with `order` 1, 2, 3. -/
def seed_course_with_lessons (s : Store) (c : Course) : String × Store :=
  let (cid, s1) := create_course_doc s c
  let (_, s2) := create_lesson_doc s1 (demo_lesson cid 1)
  let (_, s3) := create_lesson_doc s2 (demo_lesson cid 2)
  let (_, s4) := create_lesson_doc s3 (demo_lesson cid 3)
  (cid, s4)

/-- `POST /api/seed`: queries `get_documents("course", {}, limit=1)`; if any
course exists it is a no-op reporting "Courses already exist", otherwise it
creates the three demo courses, each followed by its three lessons, and
returns the created course identifiers. -/
def seed_demo (s : Store) : SeedResult × Store :=
  if (s.courses.take 1).isEmpty then
    let (id1, s1) := seed_course_with_lessons s demo_course_1
    let (id2, s2) := seed_course_with_lessons s1 demo_course_2
    let (id3, s3) := seed_course_with_lessons s2 demo_course_3
    (SeedResult.created [id1, id2, id3], s3)
  else (SeedResult.alreadyExists, s)

/-! ## Diagnostic endpoint (src/main.py, `test_database`) -/

/-- Outcome of `db.list_collection_names()`: either the names or a raised
exception's message. -/
inductive CollNamesResult where
  | ok (names : List String)
  | fail (msg : String)
deriving DecidableEq, Repr

/-- External condition of the store as `GET /test` observes it: whether the
module-level `db` handle is not `None`, whether `DATABASE_URL` is set in the
environment, the database's `name` attribute when present, and what
introspection returns. -/
structure DbState where
  available : Bool
  urlSet : Bool
  name : Option String
  colls : CollNamesResult
deriving DecidableEq, Repr

/-- The diagnostic object `GET /test` returns.  `database_url` and
`database_name` are initialised to `None` in the handler and only overwritten
when `db` is not `None`, so they are optional. -/
structure TestResponse where
  backend : String
  database : String
  database_url : Option String
  database_name : Option String
  connection_status : String
  collections : List String
deriving DecidableEq, Repr

/-- `GET /test`: builds the response dict, upgrading fields as each probe of
the store succeeds and downgrading every failure to a descriptive string; the
exception message from introspection is truncated to 80 characters and at most
10 collection names are reported. -/
def test_database (d : DbState) : TestResponse :=
  if d.available then
    let url := some (if d.urlSet then "✅ Set" else "❌ Not Set")
    let nm := some (match d.name with
      | some n => n
      | none => "✅ Connected")
    match d.colls with
    | CollNamesResult.ok names =>
      { backend := "✅ Running", database := "✅ Connected & Working",
        database_url := url, database_name := nm,
        connection_status := "Connected", collections := names.take 10 }
    | CollNamesResult.fail e =>
      { backend := "✅ Running",
        database := "⚠️ Connected but Error: " ++ String.mk (e.toList.take 80),
        database_url := url, database_name := nm,
        connection_status := "Connected", collections := [] }
  else
    { backend := "✅ Running", database := "⚠️ Available but not initialized",
      database_url := none, database_name := none,
      connection_status := "Not Connected", collections := [] }

/-! ## Helper lemmas -/

theorem genIdAux_length (k n : Nat) : (genIdAux k n).length = k := by
  induction k generalizing n with
  | zero => rfl
  | succ k ih => simp [genIdAux, ih]

theorem isHexDigitChar_hexChar (n : Nat) (h : n < 16) :
    isHexDigitChar (hexChar n) = true := by
  interval_cases n <;> decide

theorem genIdAux_all_hex (k n : Nat) :
    ∀ c ∈ genIdAux k n, isHexDigitChar c = true := by
  induction k generalizing n with
  | zero => intro c hc; simp [genIdAux] at hc
  | succ k ih =>
    intro c hc
    simp only [genIdAux, List.mem_append, List.mem_singleton] at hc
    rcases hc with hc | hc
    · exact ih _ _ hc
    · subst hc
      exact isHexDigitChar_hexChar _ (Nat.mod_lt _ (by norm_num))

theorem isValidObjectId_genId (n : Nat) : isValidObjectId (genId n) = true := by
  have hlen : (genId n).length = 24 := by
    show (genIdAux 24 n).length = 24
    exact genIdAux_length 24 n
  have hlist : (genId n).toList = genIdAux 24 n := rfl
  unfold isValidObjectId
  rw [Bool.and_eq_true]
  refine ⟨?_, ?_⟩
  · rw [beq_iff_eq]
    exact hlen
  · rw [hlist, List.all_eq_true]
    intro c hc
    exact genIdAux_all_hex 24 n c hc

theorem oidEq_refl (a : String) : oidEq a a = true := by
  simp [oidEq]

theorem containsCI_empty_pat (hay : String) : containsCI hay "" = true := by
  unfold containsCI
  have h0 : (strLower "").toList = [] := rfl
  rw [h0]
  cases (strLower hay).toList with
  | nil => rfl
  | cons b bs => simp [hasSubChars, leadMatch]

theorem course_matches_q_empty (c : Course) : course_matches_q "" c = true := by
  simp [course_matches_q, containsCI_empty_pat]

/-! ## Claims -/

/-- C10: in `GET /api/courses`, an empty-string `tag` or `q` is falsy in
Python, so no corresponding filter condition is added — the request behaves
exactly as if the parameter were omitted, and with neither filter all courses
up to `limit` are returned. -/
theorem empty_params_ignored (s : Store) (tag q : Option String) (limit : Nat) :
    list_courses s (some "") q limit = list_courses s none q limit ∧
    list_courses s tag (some "") limit = list_courses s tag none limit ∧
    list_courses s none none limit = s.courses.take limit := by
  refine ⟨?_, ?_, ?_⟩
  · have h : build_course_filter (some "") q = build_course_filter none q := by
      simp [build_course_filter, pyTruthy]
    simp [list_courses, h]
  · have h : build_course_filter tag (some "") = build_course_filter tag none := by
      simp [build_course_filter, pyTruthy]
    simp [list_courses, h]
  · simp [list_courses, build_course_filter, pyTruthy, course_filter_matches]

/-- C4 (amended only by the store's hard query limit, claim C9): listing
lessons of a course returns exactly the lessons whose `course_id` equals the
given one — as a permutation of the store's matching documents — and the
result is pairwise non-decreasing in `x.get("order", 0)`, a lesson missing
`order` sorting as 0. -/
theorem lessons_filtered_and_sorted (s : Store) (cid : String)
    (h : (s.lessons.filter (fun p => p.2.course_id == cid)).length ≤ 200) :
    (list_lessons s cid).Perm (s.lessons.filter (fun p => p.2.course_id == cid)) ∧
    List.Pairwise lessonLe (list_lessons s cid) := by
  constructor
  · unfold list_lessons
    rw [List.take_of_length_le h]
    exact List.perm_insertionSort lessonLe _
  · exact List.sorted_insertionSort lessonLe _

/-- Store for the lessons witness: two lessons of course "c" stored out of
order, one lesson of another course, one lesson missing its `order` field. -/
def wLessonStore : Store :=
  { courses := [], enrollments := [], reviews := [], nextId := 4,
    lessons :=
      [(genId 0, { course_id := "c", title := "B", content := "b",
                   video_url := none, order := some 2 }),
       (genId 1, { course_id := "d", title := "X", content := "x",
                   video_url := none, order := some 1 }),
       (genId 2, { course_id := "c", title := "A", content := "a",
                   video_url := none, order := none }),
       (genId 3, { course_id := "c", title := "C", content := "c",
                   video_url := none, order := some 7 })] }

/-- Witness for C4 at a concrete store. -/
theorem lessons_filtered_and_sorted_witness :
    (list_lessons wLessonStore "c").Perm
      (wLessonStore.lessons.filter (fun p => p.2.course_id == "c")) ∧
    List.Pairwise lessonLe (list_lessons wLessonStore "c") :=
  lessons_filtered_and_sorted wLessonStore "c" (by decide)

/-- C9: the lessons route queries the store with a hard-coded `limit=200`, so
it returns `min 200 k` lessons when `k` match — in particular never more than
200, and excess matching lessons are silently omitted. -/
theorem list_lessons_at_most_200 (s : Store) (cid : String) :
    (list_lessons s cid).length =
      min 200 (s.lessons.filter (fun p => p.2.course_id == cid)).length ∧
    (list_lessons s cid).length ≤ 200 := by
  have h : (list_lessons s cid).length =
      min 200 (s.lessons.filter (fun p => p.2.course_id == cid)).length := by
    unfold list_lessons
    rw [(List.perm_insertionSort lessonLe _).length_eq]
    exact List.length_take _ _
  exact ⟨h, by rw [h]; exact Nat.min_le_left _ _⟩

/-- C3: a stored course is returned by `GET /api/courses?q=...` exactly when
the search term occurs as a case-insensitive substring of its title, subtitle,
description, or one of its tags (logical OR across those fields).  The
hypothesis keeps the store within the route's `limit` so that the result is
not additionally truncated. -/
theorem q_search_ci_substring_or (s : Store) (q cid : String) (c : Course)
    (limit : Nat) (hmem : (cid, c) ∈ s.courses) (hlim : s.courses.length ≤ limit) :
    ((cid, c) ∈ list_courses s none (some q) limit ↔ course_matches_q q c = true) := by
  unfold list_courses
  have hfl : (s.courses.filter
      (fun p => course_filter_matches (build_course_filter none (some q)) p.2)).length ≤
      limit := le_trans (List.length_filter_le _ _) hlim
  rw [List.take_of_length_le hfl, List.mem_filter]
  by_cases hq : q = ""
  · subst hq
    simp [build_course_filter, pyTruthy, course_filter_matches, hmem,
      course_matches_q_empty]
  · have hb : build_course_filter none (some q) =
        { tagCond := none, orCond := some q } := by
      simp [build_course_filter, pyTruthy, hq]
    rw [hb]
    simp [course_filter_matches, hmem]

/-- Witness course that mentions "react" (only case-insensitively in its
description). -/
def wCourseReact : Course :=
  { title := "React for Beginners", subtitle := none,
    description := "Learn REACT by doing", instructor_name := "A",
    instructor_email := "a@x.com", price := 0, thumbnail_url := none,
    tags := ["react", "frontend"], language := "English", level := "Beginner" }

/-- Witness course unrelated to "react". -/
def wCourseCooking : Course :=
  { title := "Cooking", subtitle := some "Pasta",
    description := "Noodles", instructor_name := "B",
    instructor_email := "b@x.com", price := 0, thumbnail_url := none,
    tags := ["food"], language := "English", level := "Beginner" }

/-- Store for the course-search witnesses: one matching and one non-matching
course. -/
def wSearchStore : Store :=
  { lessons := [], enrollments := [], reviews := [], nextId := 2,
    courses := [(genId 0, wCourseReact), (genId 1, wCourseCooking)] }

/-- Witness for C3: searching "react" finds the course that mentions it only
case-insensitively, and that course indeed satisfies the OR predicate. -/
theorem q_search_ci_substring_or_witness :
    ((genId 0, wCourseReact) ∈ list_courses wSearchStore none (some "react") 50 ↔
      course_matches_q "react" wCourseReact = true) :=
  q_search_ci_substring_or wSearchStore "react" (genId 0) wCourseReact 50
    (by decide) (by decide)

/-- C7 as stated is false at `tag = ""`: Python truthiness drops the empty-tag
condition, so a course whose `tags` list does not contain `""` is still
returned. -/
theorem tag_filter_empty_tag_cex :
    ((genId 1, wCourseCooking) ∈ list_courses wSearchStore (some "") none 50) ∧
    wCourseCooking.tags.contains "" = false := by
  constructor
  · decide
  · decide

/-- C7 amended: for every NONEMPTY tag, `GET /api/courses?tag=...` returns
exactly the stored courses whose `tags` list contains the tag as an element;
and when `q` is supplied alongside a nonempty tag, a returned course satisfies
both the tag-membership condition and the q-substring condition (conjunction).
(An empty tag is falsy in Python and disables the tag filter, claim C10.) -/
theorem tag_filter_membership (s : Store) (t q cid : String) (c : Course)
    (limit : Nat) (ht : t ≠ "") (hmem : (cid, c) ∈ s.courses)
    (hlim : s.courses.length ≤ limit) :
    ((cid, c) ∈ list_courses s (some t) none limit ↔ c.tags.contains t = true) ∧
    ((cid, c) ∈ list_courses s (some t) (some q) limit →
      c.tags.contains t = true ∧ course_matches_q q c = true) := by
  have htr : pyTruthy (some t) = true := by simp [pyTruthy, ht]
  constructor
  · unfold list_courses
    have hfl : (s.courses.filter
        (fun p => course_filter_matches (build_course_filter (some t) none) p.2)).length ≤
        limit := le_trans (List.length_filter_le _ _) hlim
    rw [List.take_of_length_le hfl, List.mem_filter]
    have hb : build_course_filter (some t) none =
        { tagCond := some t, orCond := none } := by
      simp [build_course_filter, pyTruthy, ht]
    rw [hb]
    simp [course_filter_matches, hmem]
  · intro hin
    unfold list_courses at hin
    have hmf := (List.mem_filter.mp (List.mem_of_mem_take hin)).2
    by_cases hq : q = ""
    · subst hq
      have hb : build_course_filter (some t) (some "") =
          { tagCond := some t, orCond := none } := by
        simp [build_course_filter, pyTruthy, ht]
      rw [hb] at hmf
      simp only [course_filter_matches, Bool.and_true] at hmf
      exact ⟨hmf, course_matches_q_empty c⟩
    · have hb : build_course_filter (some t) (some q) =
          { tagCond := some t, orCond := some q } := by
        simp [build_course_filter, pyTruthy, ht, hq]
      rw [hb] at hmf
      simpa [course_filter_matches, Bool.and_eq_true] using hmf

/-- Witness for the amended C7 at a concrete store, tag and search term. -/
theorem tag_filter_membership_witness :
    (((genId 0, wCourseReact) ∈ list_courses wSearchStore (some "react") none 50 ↔
      wCourseReact.tags.contains "react" = true)) ∧
    ((genId 0, wCourseReact) ∈ list_courses wSearchStore (some "react") (some "beginners") 50 →
      wCourseReact.tags.contains "react" = true ∧
      course_matches_q "beginners" wCourseReact = true) :=
  tag_filter_membership wSearchStore "react" "beginners" (genId 0) wCourseReact 50
    (by decide) (by decide) (by decide)

/-- C5: `GET /api/courses/{course_id}` returns 400 "Invalid course ID" when
the identifier is not a well-formed ObjectId (checked before any store query —
the handler touches the store only in the valid branch), 404 "Course not
found" when the identifier is well-formed but matches no stored course, and
the single matching record (with its identifier) otherwise. -/
theorem get_course_status_cases (s : Store) (cid : String) :
    (isValidObjectId cid = false →
      get_course s cid = Except.error (400, "Invalid course ID")) ∧
    (isValidObjectId cid = true →
      s.courses.filter (fun p => oidEq p.1 cid) = [] →
      get_course s cid = Except.error (404, "Course not found")) ∧
    (∀ (d : String × Course) (rest : List (String × Course)),
      isValidObjectId cid = true →
      s.courses.filter (fun p => oidEq p.1 cid) = d :: rest →
      get_course s cid = Except.ok d) := by
  refine ⟨?_, ?_, ?_⟩
  · intro h
    unfold get_course
    rw [h]
    rfl
  · intro h hnil
    unfold get_course
    rw [h, hnil]
    rfl
  · intro d rest h hcons
    unfold get_course
    rw [h, hcons]
    rfl

/-- Witness for C5: a malformed id, a well-formed unknown id, and the id of a
stored course, each with its contractual outcome. -/
theorem get_course_status_cases_witness :
    get_course wSearchStore "not-a-valid-id" = Except.error (400, "Invalid course ID") ∧
    get_course wSearchStore "0000000000000000000000ff" = Except.error (404, "Course not found") ∧
    get_course wSearchStore (genId 0) = Except.ok (genId 0, wCourseReact) :=
  ⟨(get_course_status_cases wSearchStore "not-a-valid-id").1 (by decide),
   (get_course_status_cases wSearchStore "0000000000000000000000ff").2.1
     (by decide) (by decide),
   (get_course_status_cases wSearchStore (genId 0)).2.2 (genId 0, wCourseReact) []
     (by decide) (by decide)⟩

/-- C2: a Review whose rating violates `1 ≤ rating ≤ 5` and an Enrollment
whose (defaulted) progress violates `0 ≤ progress ≤ 100` are rejected by
schema validation with status 400 before any store call: no identifier is
returned and the store state is returned unchanged. -/
theorem invalid_payloads_rejected_before_store (s : Store)
    (r : ReviewPayload) (e : EnrollmentPayload)
    (hr : ¬(1 ≤ r.rating ∧ r.rating ≤ 5))
    (he : ¬(0 ≤ e.progress.getD 0 ∧ e.progress.getD 0 ≤ 100)) :
    create_review_endpoint s r = ((400, none), s) ∧
    enroll_endpoint s e = ((400, none), s) := by
  constructor
  · unfold create_review_endpoint validate_review
    rw [if_neg hr]
  · unfold enroll_endpoint validate_enrollment
    rw [if_neg he]

/-- Witness for C2: a rating of 6 and a progress of 150 are both rejected
with 400 and leave the empty store empty. -/
theorem invalid_payloads_rejected_before_store_witness :
    create_review_endpoint Store.empty
        { course_id := "c", user_email := "u@x.com", user_name := "U",
          rating := 6, comment := none } = ((400, none), Store.empty) ∧
    enroll_endpoint Store.empty
        { course_id := "c", user_email := "u@x.com", user_name := "U",
          progress := some 150 } = ((400, none), Store.empty) :=
  invalid_payloads_rejected_before_store Store.empty
    { course_id := "c", user_email := "u@x.com", user_name := "U",
      rating := 6, comment := none }
    { course_id := "c", user_email := "u@x.com", user_name := "U",
      progress := some 150 }
    (by decide) (by decide)

/-- C1: for any payload that schema validation accepts (producing the record
with defaults applied), `POST /api/courses` answers 200 with the assigned
identifier, and an immediate `GET /api/courses/{id}` on that identifier
returns exactly the submitted record (defaults applied) together with the
identifier.  The freshness hypothesis states what the store guarantees: the
identifier it assigns is not already in use. -/
theorem create_then_get_roundtrip (s : Store) (p : CoursePayload) (c : Course)
    (hval : validate_course p = some c)
    (hfresh : ∀ pr ∈ s.courses, oidEq pr.1 (genId s.nextId) = false) :
    (create_course_endpoint s p).1 = (200, some (genId s.nextId)) ∧
    get_course (create_course_endpoint s p).2 (genId s.nextId) =
      Except.ok (genId s.nextId, c) := by
  have hep : create_course_endpoint s p =
      ((200, some (genId s.nextId)),
       { s with courses := s.courses ++ [(genId s.nextId, c)],
                nextId := s.nextId + 1 }) := by
    unfold create_course_endpoint
    rw [hval]
    rfl
  rw [hep]
  refine ⟨rfl, ?_⟩
  have hfilter : ((s.courses ++ [(genId s.nextId, c)]).filter
      (fun p2 => oidEq p2.1 (genId s.nextId))) = [(genId s.nextId, c)] := by
    rw [List.filter_append]
    have h1 : s.courses.filter (fun p2 => oidEq p2.1 (genId s.nextId)) = [] :=
      List.filter_eq_nil_iff.mpr (fun a ha => by simp [hfresh a ha])
    rw [h1]
    simp [List.filter, oidEq_refl]
  unfold get_course
  rw [isValidObjectId_genId, hfilter]
  rfl

/-- Witness payload for C1: optional `subtitle`, `price`, `tags`, `language`,
`level` left absent so that the defaults apply. -/
def wPayload : CoursePayload :=
  { title := "Intro to Lean", subtitle := none,
    description := "Proofs as programs", instructor_name := "N",
    instructor_email := "n@x.com", price := none, thumbnail_url := none,
    tags := none, language := none, level := none }

/-- The validated record for `wPayload`: defaults applied. -/
def wPayloadApplied : Course :=
  { title := "Intro to Lean", subtitle := none,
    description := "Proofs as programs", instructor_name := "N",
    instructor_email := "n@x.com", price := 0, thumbnail_url := none,
    tags := [], language := "English", level := "Beginner" }

/-- Witness for C1 on the empty store. -/
theorem create_then_get_roundtrip_witness :
    (create_course_endpoint Store.empty wPayload).1 = (200, some (genId 0)) ∧
    get_course (create_course_endpoint Store.empty wPayload).2 (genId 0) =
      Except.ok (genId 0, wPayloadApplied) :=
  create_then_get_roundtrip Store.empty wPayload wPayloadApplied
    (by decide) (by decide)

/-- C6: `POST /api/seed` on a store with no courses creates exactly the 3 demo
courses and their 3 lessons each (orders 1, 2, 3) and returns the 3 created
course identifiers; on any store that already has a course it performs no
writes and reports that courses already exist; hence a second call is a no-op
and the course count after two calls equals the count after the first.  The
per-course lesson orders are checked on the fresh deployment store. -/
theorem seed_demo_spec :
    (∀ (es : List (String × Enrollment)) (rs : List (String × Review)) (n : Nat),
      (seed_demo (Store.mk [] [] es rs n)).1 =
        SeedResult.created [genId n, genId (n + 4), genId (n + 8)] ∧
      (seed_demo (Store.mk [] [] es rs n)).2.courses =
        [(genId n, demo_course_1), (genId (n + 4), demo_course_2),
         (genId (n + 8), demo_course_3)] ∧
      (seed_demo (Store.mk [] [] es rs n)).2.courses.length = 3 ∧
      (seed_demo (Store.mk [] [] es rs n)).2.lessons =
        [(genId (n + 1), demo_lesson (genId n) 1),
         (genId (n + 2), demo_lesson (genId n) 2),
         (genId (n + 3), demo_lesson (genId n) 3),
         (genId (n + 5), demo_lesson (genId (n + 4)) 1),
         (genId (n + 6), demo_lesson (genId (n + 4)) 2),
         (genId (n + 7), demo_lesson (genId (n + 4)) 3),
         (genId (n + 9), demo_lesson (genId (n + 8)) 1),
         (genId (n + 10), demo_lesson (genId (n + 8)) 2),
         (genId (n + 11), demo_lesson (genId (n + 8)) 3)] ∧
      seed_demo (seed_demo (Store.mk [] [] es rs n)).2 =
        (SeedResult.alreadyExists, (seed_demo (Store.mk [] [] es rs n)).2) ∧
      (seed_demo (seed_demo (Store.mk [] [] es rs n)).2).2.courses.length =
        (seed_demo (Store.mk [] [] es rs n)).2.courses.length) ∧
    (∀ (c : String × Course) (cs : List (String × Course))
       (ls : List (String × StoredLesson)) (es : List (String × Enrollment))
       (rs : List (String × Review)) (n : Nat),
      seed_demo (Store.mk (c :: cs) ls es rs n) =
        (SeedResult.alreadyExists, Store.mk (c :: cs) ls es rs n)) ∧
    (((seed_demo Store.empty).2.lessons.filter
        (fun p => p.2.course_id == genId 0)).map (fun p => p.2.order) =
      [some 1, some 2, some 3]) ∧
    (((seed_demo Store.empty).2.lessons.filter
        (fun p => p.2.course_id == genId 4)).map (fun p => p.2.order) =
      [some 1, some 2, some 3]) ∧
    (((seed_demo Store.empty).2.lessons.filter
        (fun p => p.2.course_id == genId 8)).map (fun p => p.2.order) =
      [some 1, some 2, some 3]) := by
  refine ⟨?_, ?_, ?_, ?_, ?_⟩
  · intro es rs n
    exact ⟨rfl, rfl, rfl, rfl, rfl, rfl⟩
  · intro c cs ls es rs n
    rfl
  · decide
  · decide
  · decide

/-- C8 as stated is false when the store handle is `None`: the handler's
initial response sets `database_url` and `database_name` to `None` and only
overwrites them when `db is not None`, so those two values are null, not
strings. -/
theorem test_database_null_fields_cex :
    (test_database
        { available := false, urlSet := false, name := none,
          colls := CollNamesResult.ok ["course"] }).database_url = none ∧
    (test_database
        { available := false, urlSet := false, name := none,
          colls := CollNamesResult.ok ["course"] }).database_name = none := by
  exact ⟨rfl, rfl⟩

/-- C8 amended: `GET /test` is total (never raises — every probe failure is
downgraded to a descriptive string), always answers the full diagnostic
object, its `collections` value never exceeds 10 names, and whenever the store
handle is available `database_url` and `database_name` are strings; when the
handle is `None` those two fields are null. -/
theorem test_database_amended (d d2 : DbState) (h : d.available = true) :
    (test_database d).backend = "✅ Running" ∧
    (test_database d).database_url.isSome = true ∧
    (test_database d).database_name.isSome = true ∧
    (test_database d).connection_status = "Connected" ∧
    (test_database d2).collections.length ≤ 10 := by
  refine ⟨?_, ?_, ?_, ?_, ?_⟩
  · unfold test_database
    rw [h]
    cases d.colls <;> rfl
  · unfold test_database
    rw [h]
    cases d.colls <;> rfl
  · unfold test_database
    rw [h]
    cases d.colls <;> rfl
  · unfold test_database
    rw [h]
    cases d.colls <;> rfl
  · unfold test_database
    by_cases h2 : d2.available = true
    · cases hc : d2.colls with
      | ok names =>
        simp only [h2, hc, if_true, List.length_take]
        omega
      | fail msg => simp [h2, hc]
    · rw [Bool.not_eq_true] at h2
      simp [h2]

/-- Witness for the amended C8: a connected store with twelve collections is
reported with exactly ten, and all fields are populated. -/
theorem test_database_amended_witness :
    (test_database
        { available := true, urlSet := true, name := some "app",
          colls := CollNamesResult.ok
            ["c1", "c2", "c3", "c4", "c5", "c6", "c7", "c8", "c9", "c10",
             "c11", "c12"] }).backend = "✅ Running" ∧
    (test_database
        { available := true, urlSet := true, name := some "app",
          colls := CollNamesResult.ok
            ["c1", "c2", "c3", "c4", "c5", "c6", "c7", "c8", "c9", "c10",
             "c11", "c12"] }).database_url.isSome = true ∧
    (test_database
        { available := true, urlSet := true, name := some "app",
          colls := CollNamesResult.ok
            ["c1", "c2", "c3", "c4", "c5", "c6", "c7", "c8", "c9", "c10",
             "c11", "c12"] }).database_name.isSome = true ∧
    (test_database
        { available := true, urlSet := true, name := some "app",
          colls := CollNamesResult.ok
            ["c1", "c2", "c3", "c4", "c5", "c6", "c7", "c8", "c9", "c10",
             "c11", "c12"] }).connection_status = "Connected" ∧
    (test_database
        { available := true, urlSet := true, name := some "app",
          colls := CollNamesResult.ok
            ["c1", "c2", "c3", "c4", "c5", "c6", "c7", "c8", "c9", "c10",
             "c11", "c12"] }).collections.length ≤ 10 :=
  test_database_amended
    { available := true, urlSet := true, name := some "app",
      colls := CollNamesResult.ok
        ["c1", "c2", "c3", "c4", "c5", "c6", "c7", "c8", "c9", "c10",
         "c11", "c12"] }
    { available := true, urlSet := true, name := some "app",
      colls := CollNamesResult.ok
        ["c1", "c2", "c3", "c4", "c5", "c6", "c7", "c8", "c9", "c10",
         "c11", "c12"] }
    rfl

end ELearning
